import Mathlib

/-!
# The CFG instruction algebra of `cfg/Instructions.h`

A shallow embedding of the instruction classes of `sorbet::cfg`: the use-site
wrapper, the `Tag` enumeration, the fourteen instruction classes with their
constructors, the checked downcast, and the assignments that the public data
members admit.  Theorems about the embedding follow the definitions.

Conventions of the embedding.

* A C++ class is a Lean structure; a subclass of `Instruction` extends the
  structure `Instruction`, so that the base subobject (`isSynthetic`, `tag`) is
  part of every instruction.
* A pointer is an `Option`: `none` is `nullptr`.
* A constructor `K::K(...)` is the function `K.ctor`.
* An assignment to a public non-const data member is a function returning the
  updated object.  `tag` is declared `const Tag tag`, so there is no assignment
  to it.
-/

namespace sorbet.cfg

/-! ## Collaborating types declared outside `Instructions.h` -/

/-- Modelled from the spec: `LocalRef` (declared in `cfg/LocalRef.h`) is "a small value
identifying one CFG-local variable slot by index into a per-graph table". -/
abbrev LocalRef := Nat

/-- Modelled from the spec: `core::NameRef` (declared in `core/NameRef.h`) is a reference to an
interned name, here the index of the name. -/
abbrev NameRef := Nat

/-- Modelled from the spec: `core::NameRef::noName()`, the default name of `Alias`, is a
distinguished name reference, here index zero. -/
def NameRef.noName : NameRef := 0

/-- Modelled from the spec: `core::SymbolRef` is a reference to a symbol of the global table, here
the index of the symbol. -/
abbrev SymbolRef := Nat

/-- Modelled from the spec: `core::LocOffsets` is a source location, a pair of offsets. -/
structure LocOffsets where
  beginPos : Nat
  endPos : Nat
  deriving DecidableEq, Repr

/-- Modelled from the spec: `core::TypePtr` (declared in `core/Types.h`) is a nullable handle to a
type value.  `none` is the absent type of a default-constructed `TypePtr`; `some t` holds the type
with identity `t`. -/
abbrev TypePtr := Option Nat

/-- Modelled from the spec: `std::shared_ptr<core::SendAndBlockLink>`.  `none` is `nullptr`,
`some l` points to the call-link with identity `l`; two pointers are equal exactly when they
reference the same link. -/
abbrev LinkPtr := Option Nat

/-- The width of the unsigned 16-bit integer type `u2`. -/
def u2Size : Nat := 65536

/-- Conversion of an integer argument to a parameter of type `u2`. -/
def toU2 (n : Nat) : Nat := n % u2Size

/-! ## `VariableUseSite` (lines 14-26) -/

/-- The class `VariableUseSite`: a variable handle and a type slot.  The member `variable` is
written `variable_`.  The default member initialisation leaves `type` absent. -/
structure VariableUseSite where
  variable_ : LocalRef
  type : TypePtr := none
  deriving DecidableEq, Repr

/-- The constructor `VariableUseSite(LocalRef local) : variable(local)`. -/
def VariableUseSite.ctor (v : LocalRef) : VariableUseSite :=
  { variable_ := v }

/-! ## `Tag` (lines 32-47) and `Instruction` (lines 50-60) -/

/-- The enumeration `enum class Tag : u1`. -/
inductive Tag where
  | Ident
  | Alias
  | SolveConstraint
  | Send
  | Return
  | BlockReturn
  | LoadSelf
  | Literal
  | GetCurrentException
  | LoadArg
  | ArgPresent
  | LoadYieldParams
  | Cast
  | TAbsurd
  deriving DecidableEq, Repr

/-- The numeric value of each enumerator: `Ident = 1`, then consecutive. -/
def Tag.toU1 : Tag → Nat
  | .Ident => 1
  | .Alias => 2
  | .SolveConstraint => 3
  | .Send => 4
  | .Return => 5
  | .BlockReturn => 6
  | .LoadSelf => 7
  | .Literal => 8
  | .GetCurrentException => 9
  | .LoadArg => 10
  | .ArgPresent => 11
  | .LoadYieldParams => 12
  | .Cast => 13
  | .TAbsurd => 14

/-- The base class `Instruction`: `bool isSynthetic = false; const Tag tag;`.
The protected constructor `Instruction(Tag tag) : tag(tag)` is the structure
instance that gives `tag` and leaves `isSynthetic` at its default. -/
structure Instruction where
  isSynthetic : Bool := false
  tag : Tag
  deriving DecidableEq, Repr

/-! ## The fourteen instruction classes (lines 73-242) -/

/-- The class `Ident`. -/
structure Ident extends Instruction where
  what : LocalRef
  deriving DecidableEq, Repr

/-- The class `Alias`. -/
structure Alias extends Instruction where
  what : SymbolRef
  name : NameRef
  deriving DecidableEq, Repr

/-- The class `SolveConstraint`. -/
structure SolveConstraint extends Instruction where
  send : LocalRef
  link : LinkPtr
  deriving DecidableEq, Repr

/-- The class `Send`.  The member `fun` is written `fun_`. -/
structure Send extends Instruction where
  isPrivateOk : Bool
  numPosArgs : Nat
  fun_ : NameRef
  recv : VariableUseSite
  receiverLoc : LocOffsets
  args : List VariableUseSite
  argLocs : List LocOffsets
  link : LinkPtr
  deriving DecidableEq, Repr

/-- The class `Return`. -/
structure Return extends Instruction where
  what : VariableUseSite
  deriving DecidableEq, Repr

/-- The class `BlockReturn`. -/
structure BlockReturn extends Instruction where
  link : LinkPtr
  what : VariableUseSite
  deriving DecidableEq, Repr

/-- The class `LoadSelf`. -/
structure LoadSelf extends Instruction where
  fallback : LocalRef
  link : LinkPtr
  deriving DecidableEq, Repr

/-- The class `Literal`. -/
structure Literal extends Instruction where
  value : TypePtr
  deriving DecidableEq, Repr

/-- The class `GetCurrentException`. -/
structure GetCurrentException extends Instruction where
  deriving DecidableEq, Repr

/-- The class `LoadArg`. -/
structure LoadArg extends Instruction where
  argId : Nat
  method : SymbolRef
  deriving DecidableEq, Repr

/-- The class `ArgPresent`. -/
structure ArgPresent extends Instruction where
  argId : Nat
  method : SymbolRef
  deriving DecidableEq, Repr

/-- The class `LoadYieldParams`. -/
structure LoadYieldParams extends Instruction where
  link : LinkPtr
  deriving DecidableEq, Repr

/-- The class `Cast`. -/
structure Cast extends Instruction where
  cast : NameRef
  value : VariableUseSite
  type : TypePtr
  deriving DecidableEq, Repr

/-- The class `TAbsurd`. -/
structure TAbsurd extends Instruction where
  what : VariableUseSite
  deriving DecidableEq, Repr

/-! ### Constructors defined in the header

The bodies of some of them call `categoryCounterInc`, which counts constructor calls in a
statistics table outside the instruction; the embedding has the instruction only. -/

/-- The constructor `SolveConstraint(link, send) : Instruction(Tag::SolveConstraint), send(send), link(link)`
(line 99). -/
def SolveConstraint.ctor (link : LinkPtr) (send : LocalRef) : SolveConstraint :=
  { tag := Tag.SolveConstraint, send := send, link := link }

/-- The constructor `GetCurrentException() : Instruction(Tag::GetCurrentException)` (line 168). -/
def GetCurrentException.ctor : GetCurrentException :=
  { tag := Tag.GetCurrentException }

/-- The constructor `LoadArg(method, argId) : Instruction(Tag::LoadArg), argId(argId), method(method)`
(line 181); `argId` is a `u2`. -/
def LoadArg.ctor (method : SymbolRef) (argId : Nat) : LoadArg :=
  { tag := Tag.LoadArg, argId := toU2 argId, method := method }

/-- The constructor `ArgPresent(method, argId) : Instruction(Tag::ArgPresent), argId(argId), method(method)`
(line 196); `argId` is a `u2`. -/
def ArgPresent.ctor (method : SymbolRef) (argId : Nat) : ArgPresent :=
  { tag := Tag.ArgPresent, argId := toU2 argId, method := method }

/-- The constructor `LoadYieldParams(link) : Instruction(Tag::LoadYieldParams), link(link)` (line 210). -/
def LoadYieldParams.ctor (link : LinkPtr) : LoadYieldParams :=
  { tag := Tag.LoadYieldParams, link := link }

/-- The constructor `Cast(value, type, cast) : Instruction(Tag::Cast), cast(cast), value(value), type(type)`
(line 224).  The member `value` is a `VariableUseSite` initialised from the `LocalRef`. -/
def Cast.ctor (value : LocalRef) (type : TypePtr) (cast : NameRef) : Cast :=
  { tag := Tag.Cast, cast := cast, value := VariableUseSite.ctor value, type := type }

/-- The constructor `TAbsurd(what) : Instruction(Tag::TAbsurd), what(what)` (line 235). -/
def TAbsurd.ctor (what : LocalRef) : TAbsurd :=
  { tag := Tag.TAbsurd, what := VariableUseSite.ctor what }

/-! ### Constructors only declared in the header -/

/-- Modelled from the spec: the body of `Ident::Ident(LocalRef what)` (line 77) is not in the header.
Per the table of kinds, `Ident` is "a bare reference to an existing variable" with one variable
handle, tagged with its own kind. -/
def Ident.ctor (what : LocalRef) : Ident :=
  { tag := Tag.Ident, what := what }

/-- Modelled from the spec: the body of `Alias::Alias(SymbolRef what, NameRef name = noName())`
(line 88) is not in the header.  Per the table of kinds, `Alias` holds a "symbol reference +
optional name"; a call that omits the name passes `NameRef.noName`. -/
def Alias.ctor (what : SymbolRef) (name : NameRef) : Alias :=
  { tag := Tag.Alias, what := what, name := name }

/-- Modelled from the spec: the body of `Send::Send` (lines 116-118) is not in the header.  Per the
table of kinds a `Send` holds a "receiver use-site, method name, ordered positional-arg use-sites
with matching source-location list, positional-arg count, privacy flag, optional shared
call-link".  The constructor makes a use-site of the receiver and of every argument handle, in
order, and stores its other arguments in the members of the same name; `numPosArgs` is a `u2`.
The spec has a structural violation "fail fast (assertion/fatal) at construction or first
access" and names no check that the constructor makes, so the constructor takes its arguments as
they are. -/
def Send.ctor (recv : LocalRef) (fun_ : NameRef) (receiverLoc : LocOffsets) (numPosArgs : Nat)
    (args : List LocalRef) (argLocs : List LocOffsets) (isPrivateOk : Bool)
    (link : LinkPtr) : Send :=
  { tag := Tag.Send, isPrivateOk := isPrivateOk, numPosArgs := toU2 numPosArgs,
    fun_ := fun_, recv := VariableUseSite.ctor recv, receiverLoc := receiverLoc,
    args := args.map VariableUseSite.ctor, argLocs := argLocs, link := link }

/-- Modelled from the spec: the body of `Return::Return(LocalRef what)` (line 129) is not in the
header.  Per the table of kinds, `Return` holds one use-site. -/
def Return.ctor (what : LocalRef) : Return :=
  { tag := Tag.Return, what := VariableUseSite.ctor what }

/-- Modelled from the spec: the body of `BlockReturn::BlockReturn(link, what)` (line 140) is not in
the header.  Per the table of kinds, `BlockReturn` holds a "shared call-link + 1 use-site". -/
def BlockReturn.ctor (link : LinkPtr) (what : LocalRef) : BlockReturn :=
  { tag := Tag.BlockReturn, link := link, what := VariableUseSite.ctor what }

/-- Modelled from the spec: the body of `LoadSelf::LoadSelf(link, fallback)` (line 150) is not in
the header.  Per the table of kinds, `LoadSelf` holds a "fallback variable handle + shared
call-link". -/
def LoadSelf.ctor (link : LinkPtr) (fallback : LocalRef) : LoadSelf :=
  { tag := Tag.LoadSelf, fallback := fallback, link := link }

/-- Modelled from the spec: the body of `Literal::Literal(const TypePtr &value)` (line 160) is not
in the header.  Per the table of kinds, `Literal` holds "1 type value representing the
literal". -/
def Literal.ctor (value : TypePtr) : Literal :=
  { tag := Tag.Literal, value := value }

/-! ## Polymorphic instruction handles and the checked downcast (lines 62-71) -/

/-- The object behind an `Instruction *`: an object of exactly one of the fourteen classes.  Each
of them carries its own base subobject, whose `tag` member is what its constructor stored. -/
inductive AnyInstruction where
  | Ident (i : Ident)
  | Alias (i : Alias)
  | SolveConstraint (i : SolveConstraint)
  | Send (i : Send)
  | Return (i : Return)
  | BlockReturn (i : BlockReturn)
  | LoadSelf (i : LoadSelf)
  | Literal (i : Literal)
  | GetCurrentException (i : GetCurrentException)
  | LoadArg (i : LoadArg)
  | ArgPresent (i : ArgPresent)
  | LoadYieldParams (i : LoadYieldParams)
  | Cast (i : Cast)
  | TAbsurd (i : TAbsurd)
  deriving DecidableEq, Repr

/-- The base subobject of an instruction: the implicit conversion to `Instruction &`. -/
def AnyInstruction.base : AnyInstruction → Instruction
  | .Ident i => i.toInstruction
  | .Alias i => i.toInstruction
  | .SolveConstraint i => i.toInstruction
  | .Send i => i.toInstruction
  | .Return i => i.toInstruction
  | .BlockReturn i => i.toInstruction
  | .LoadSelf i => i.toInstruction
  | .Literal i => i.toInstruction
  | .GetCurrentException i => i.toInstruction
  | .LoadArg i => i.toInstruction
  | .ArgPresent i => i.toInstruction
  | .LoadYieldParams i => i.toInstruction
  | .Cast i => i.toInstruction
  | .TAbsurd i => i.toInstruction

/-- The member `tag`, read through an `Instruction *`. -/
def AnyInstruction.tag (what : AnyInstruction) : Tag := what.base.tag

/-- The member `isSynthetic`, read through an `Instruction *`. -/
def AnyInstruction.isSynthetic (what : AnyInstruction) : Bool := what.base.isSynthetic

/-- The fourteen classes that may stand for the template parameter `To` of `cast_instruction`. -/
inductive InsnClass where
  | Ident
  | Alias
  | SolveConstraint
  | Send
  | Return
  | BlockReturn
  | LoadSelf
  | Literal
  | GetCurrentException
  | LoadArg
  | ArgPresent
  | LoadYieldParams
  | Cast
  | TAbsurd
  deriving DecidableEq, Repr

/-- All fourteen classes. -/
def InsnClass.all : List InsnClass :=
  [.Ident, .Alias, .SolveConstraint, .Send, .Return, .BlockReturn, .LoadSelf, .Literal,
   .GetCurrentException, .LoadArg, .ArgPresent, .LoadYieldParams, .Cast, .TAbsurd]

/-- The Lean type of the objects of a class: the pointee type of `To *`. -/
def InsnClass.carrier : InsnClass → Type
  | .Ident => sorbet.cfg.Ident
  | .Alias => sorbet.cfg.Alias
  | .SolveConstraint => sorbet.cfg.SolveConstraint
  | .Send => sorbet.cfg.Send
  | .Return => sorbet.cfg.Return
  | .BlockReturn => sorbet.cfg.BlockReturn
  | .LoadSelf => sorbet.cfg.LoadSelf
  | .Literal => sorbet.cfg.Literal
  | .GetCurrentException => sorbet.cfg.GetCurrentException
  | .LoadArg => sorbet.cfg.LoadArg
  | .ArgPresent => sorbet.cfg.ArgPresent
  | .LoadYieldParams => sorbet.cfg.LoadYieldParams
  | .Cast => sorbet.cfg.Cast
  | .TAbsurd => sorbet.cfg.TAbsurd

/-- The tag that the constructor of a class passes to `Instruction(Tag)`: read off the member
initialisers `Instruction(Tag::K)` of lines 99, 168, 181, 196, 210, 224 and 235, and for the seven
constructors that are only declared, the enumerator that bears the name of the class. -/
def InsnClass.tagOf : InsnClass → Tag
  | .Ident => Tag.Ident
  | .Alias => Tag.Alias
  | .SolveConstraint => Tag.SolveConstraint
  | .Send => Tag.Send
  | .Return => Tag.Return
  | .BlockReturn => Tag.BlockReturn
  | .LoadSelf => Tag.LoadSelf
  | .Literal => Tag.Literal
  | .GetCurrentException => Tag.GetCurrentException
  | .LoadArg => Tag.LoadArg
  | .ArgPresent => Tag.ArgPresent
  | .LoadYieldParams => Tag.LoadYieldParams
  | .Cast => Tag.Cast
  | .TAbsurd => Tag.TAbsurd

/-- The class of which the object is an instance (its dynamic type). -/
def AnyInstruction.dynClass : AnyInstruction → InsnClass
  | .Ident _ => .Ident
  | .Alias _ => .Alias
  | .SolveConstraint _ => .SolveConstraint
  | .Send _ => .Send
  | .Return _ => .Return
  | .BlockReturn _ => .BlockReturn
  | .LoadSelf _ => .LoadSelf
  | .Literal _ => .Literal
  | .GetCurrentException _ => .GetCurrentException
  | .LoadArg _ => .LoadArg
  | .ArgPresent _ => .ArgPresent
  | .LoadYieldParams _ => .LoadYieldParams
  | .Cast _ => .Cast
  | .TAbsurd _ => .TAbsurd

/-- Modelled from the spec: `fast_cast<Instruction, To>` is called at line 66 and defined outside
the header.  Per the dispatch contract it is "a checked downcast to a specific kind that returns
no match rather than failing": it returns the object as a `To` when the object is an instance of
`To`, and `nullptr` otherwise, also for a null argument. -/
def fast_cast : (To : InsnClass) → Option AnyInstruction → Option To.carrier
  | .Ident, some (.Ident i) => some i
  | .Alias, some (.Alias i) => some i
  | .SolveConstraint, some (.SolveConstraint i) => some i
  | .Send, some (.Send i) => some i
  | .Return, some (.Return i) => some i
  | .BlockReturn, some (.BlockReturn i) => some i
  | .LoadSelf, some (.LoadSelf i) => some i
  | .Literal, some (.Literal i) => some i
  | .GetCurrentException, some (.GetCurrentException i) => some i
  | .LoadArg, some (.LoadArg i) => some i
  | .ArgPresent, some (.ArgPresent i) => some i
  | .LoadYieldParams, some (.LoadYieldParams i) => some i
  | .Cast, some (.Cast i) => some i
  | .TAbsurd, some (.TAbsurd i) => some i
  | _, _ => none

/-- The function template `cast_instruction<To>(Instruction *what)`:
`return fast_cast<Instruction, To>(what);`. -/
def cast_instruction (To : InsnClass) (what : Option AnyInstruction) : Option To.carrier :=
  fast_cast To what

/-- The function template `isa_instruction<To>(Instruction *what)`:
`return cast_instruction<To>(what) != nullptr;`. -/
def isa_instruction (To : InsnClass) (what : Option AnyInstruction) : Bool :=
  (cast_instruction To what).isSome

/-- The upcast `To * → Instruction *` of an object of class `To`. -/
def InsnClass.upcast : (To : InsnClass) → To.carrier → AnyInstruction
  | .Ident, i => .Ident i
  | .Alias, i => .Alias i
  | .SolveConstraint, i => .SolveConstraint i
  | .Send, i => .Send i
  | .Return, i => .Return i
  | .BlockReturn, i => .BlockReturn i
  | .LoadSelf, i => .LoadSelf i
  | .Literal, i => .Literal i
  | .GetCurrentException, i => .GetCurrentException i
  | .LoadArg, i => .LoadArg i
  | .ArgPresent, i => .ArgPresent i
  | .LoadYieldParams, i => .LoadYieldParams i
  | .Cast, i => .Cast i
  | .TAbsurd, i => .TAbsurd i

/-- A call of the constructor of one of the fourteen classes, with its arguments. -/
inductive CtorCall where
  | Ident (what : LocalRef)
  | Alias (what : SymbolRef) (name : NameRef)
  | SolveConstraint (link : LinkPtr) (send : LocalRef)
  | Send (recv : LocalRef) (fun_ : NameRef) (receiverLoc : LocOffsets) (numPosArgs : Nat)
      (args : List LocalRef) (argLocs : List LocOffsets) (isPrivateOk : Bool) (link : LinkPtr)
  | Return (what : LocalRef)
  | BlockReturn (link : LinkPtr) (what : LocalRef)
  | LoadSelf (link : LinkPtr) (fallback : LocalRef)
  | Literal (value : TypePtr)
  | GetCurrentException
  | LoadArg (method : SymbolRef) (argId : Nat)
  | ArgPresent (method : SymbolRef) (argId : Nat)
  | LoadYieldParams (link : LinkPtr)
  | Cast (value : LocalRef) (type : TypePtr) (cast : NameRef)
  | TAbsurd (what : LocalRef)
  deriving DecidableEq, Repr

/-- The class whose constructor is called. -/
def CtorCall.cls : CtorCall → InsnClass
  | .Ident _ => .Ident
  | .Alias _ _ => .Alias
  | .SolveConstraint _ _ => .SolveConstraint
  | .Send _ _ _ _ _ _ _ _ => .Send
  | .Return _ => .Return
  | .BlockReturn _ _ => .BlockReturn
  | .LoadSelf _ _ => .LoadSelf
  | .Literal _ => .Literal
  | .GetCurrentException => .GetCurrentException
  | .LoadArg _ _ => .LoadArg
  | .ArgPresent _ _ => .ArgPresent
  | .LoadYieldParams _ => .LoadYieldParams
  | .Cast _ _ _ => .Cast
  | .TAbsurd _ => .TAbsurd

/-- The instruction that a constructor call produces, as `std::make_unique<K>(...)` hands it out
behind an `Instruction *`. -/
def CtorCall.build : CtorCall → AnyInstruction
  | .Ident what => .Ident (Ident.ctor what)
  | .Alias what name => .Alias (Alias.ctor what name)
  | .SolveConstraint link send => .SolveConstraint (SolveConstraint.ctor link send)
  | .Send recv fun_ receiverLoc numPosArgs args argLocs isPrivateOk link =>
      .Send (Send.ctor recv fun_ receiverLoc numPosArgs args argLocs isPrivateOk link)
  | .Return what => .Return (Return.ctor what)
  | .BlockReturn link what => .BlockReturn (BlockReturn.ctor link what)
  | .LoadSelf link fallback => .LoadSelf (LoadSelf.ctor link fallback)
  | .Literal value => .Literal (Literal.ctor value)
  | .GetCurrentException => .GetCurrentException GetCurrentException.ctor
  | .LoadArg method argId => .LoadArg (LoadArg.ctor method argId)
  | .ArgPresent method argId => .ArgPresent (ArgPresent.ctor method argId)
  | .LoadYieldParams link => .LoadYieldParams (LoadYieldParams.ctor link)
  | .Cast value type cast => .Cast (Cast.ctor value type cast)
  | .TAbsurd what => .TAbsurd (TAbsurd.ctor what)

/-! ## Reading operands through an instruction handle -/

/-- The use-site members of an instruction, in declaration order: for a `Send` the receiver
followed by the arguments. -/
def AnyInstruction.useSites : AnyInstruction → List VariableUseSite
  | .Send i => i.recv :: i.args
  | .Return i => [i.what]
  | .BlockReturn i => [i.what]
  | .Cast i => [i.value]
  | .TAbsurd i => [i.what]
  | _ => []

/-- The variable handles held by an instruction: its `LocalRef` members and the `variable` of
each use-site, in declaration order. -/
def AnyInstruction.operandHandles : AnyInstruction → List LocalRef
  | .Ident i => [i.what]
  | .SolveConstraint i => [i.send]
  | .LoadSelf i => [i.fallback]
  | I => I.useSites.map VariableUseSite.variable_

/-- The symbol and name references held by an instruction, in declaration order. -/
def AnyInstruction.symbolNameRefs : AnyInstruction → List Nat
  | .Alias i => [i.what, i.name]
  | .Send i => [i.fun_]
  | .LoadArg i => [i.method]
  | .ArgPresent i => [i.method]
  | .Cast i => [i.cast]
  | _ => []

/-- The member `link` of the five classes that have one; `none` for a class without the
member. -/
def AnyInstruction.linkMember : AnyInstruction → Option LinkPtr
  | .SolveConstraint i => some i.link
  | .Send i => some i.link
  | .BlockReturn i => some i.link
  | .LoadSelf i => some i.link
  | .LoadYieldParams i => some i.link
  | _ => none

/-! ## Assignments to the public data members -/

/-- An assignment to a use-site: to its member `variable`, to its member `type`, or the defaulted
move assignment of a whole use-site (line 23).  Copy assignment is deleted (line 21). -/
inductive UseSiteWrite where
  | variable_ (v : LocalRef)
  | type (t : TypePtr)
  | move (rhs : VariableUseSite)
  deriving DecidableEq, Repr

/-- The use-site after the assignment. -/
def VariableUseSite.assign (u : VariableUseSite) : UseSiteWrite → VariableUseSite
  | .variable_ v => { u with variable_ := v }
  | .type t => { u with type := t }
  | .move rhs => rhs

/-- An assignment to one data member of an instruction.  There is one constructor for every
non-const public data member declared in lines 50-242, named after the class and the member;
`Send_args_at i` is an assignment to the element `args[i]`.  The member `tag` is `const` and has
no assignment. -/
inductive FieldWrite where
  | isSynthetic (b : Bool)
  | Ident_what (v : LocalRef)
  | Alias_what (s : SymbolRef)
  | Alias_name (n : NameRef)
  | SolveConstraint_send (v : LocalRef)
  | SolveConstraint_link (l : LinkPtr)
  | Send_isPrivateOk (b : Bool)
  | Send_numPosArgs (n : Nat)
  | Send_fun (n : NameRef)
  | Send_recv (w : UseSiteWrite)
  | Send_receiverLoc (l : LocOffsets)
  | Send_args (xs : List VariableUseSite)
  | Send_args_at (i : Nat) (w : UseSiteWrite)
  | Send_argLocs (ls : List LocOffsets)
  | Send_link (l : LinkPtr)
  | Return_what (w : UseSiteWrite)
  | BlockReturn_link (l : LinkPtr)
  | BlockReturn_what (w : UseSiteWrite)
  | LoadSelf_fallback (v : LocalRef)
  | LoadSelf_link (l : LinkPtr)
  | Literal_value (t : TypePtr)
  | LoadArg_argId (n : Nat)
  | LoadArg_method (s : SymbolRef)
  | ArgPresent_argId (n : Nat)
  | ArgPresent_method (s : SymbolRef)
  | LoadYieldParams_link (l : LinkPtr)
  | Cast_cast (n : NameRef)
  | Cast_value (w : UseSiteWrite)
  | Cast_type (t : TypePtr)
  | TAbsurd_what (w : UseSiteWrite)
  deriving DecidableEq, Repr

/-- The assignment `what->isSynthetic = b` through an `Instruction *`. -/
def AnyInstruction.setSynthetic (b : Bool) : AnyInstruction → AnyInstruction
  | .Ident i => .Ident { i with isSynthetic := b }
  | .Alias i => .Alias { i with isSynthetic := b }
  | .SolveConstraint i => .SolveConstraint { i with isSynthetic := b }
  | .Send i => .Send { i with isSynthetic := b }
  | .Return i => .Return { i with isSynthetic := b }
  | .BlockReturn i => .BlockReturn { i with isSynthetic := b }
  | .LoadSelf i => .LoadSelf { i with isSynthetic := b }
  | .Literal i => .Literal { i with isSynthetic := b }
  | .GetCurrentException i => .GetCurrentException { i with isSynthetic := b }
  | .LoadArg i => .LoadArg { i with isSynthetic := b }
  | .ArgPresent i => .ArgPresent { i with isSynthetic := b }
  | .LoadYieldParams i => .LoadYieldParams { i with isSynthetic := b }
  | .Cast i => .Cast { i with isSynthetic := b }
  | .TAbsurd i => .TAbsurd { i with isSynthetic := b }

/-- The assignment to `args[i]` of a `Send`.  An index outside the vector is outside the contract
of `operator[]`; the embedding leaves the vector as it is there. -/
def Send.assignArg (s : Send) (i : Nat) (w : UseSiteWrite) : Send :=
  match s.args[i]? with
  | some u => { s with args := s.args.set i (u.assign w) }
  | none => s

/-- The instruction after an assignment to one of its members.  An assignment to a member of
class `K` is made through `cast_instruction<K>`; on an instruction of another class the downcast
is null and nothing is assigned. -/
def AnyInstruction.assign (I : AnyInstruction) (w : FieldWrite) : AnyInstruction :=
  match w with
  | .isSynthetic b => I.setSynthetic b
  | .Ident_what v =>
      match I with | .Ident i => .Ident { i with what := v } | _ => I
  | .Alias_what s =>
      match I with | .Alias i => .Alias { i with what := s } | _ => I
  | .Alias_name n =>
      match I with | .Alias i => .Alias { i with name := n } | _ => I
  | .SolveConstraint_send v =>
      match I with | .SolveConstraint i => .SolveConstraint { i with send := v } | _ => I
  | .SolveConstraint_link l =>
      match I with | .SolveConstraint i => .SolveConstraint { i with link := l } | _ => I
  | .Send_isPrivateOk b =>
      match I with | .Send i => .Send { i with isPrivateOk := b } | _ => I
  | .Send_numPosArgs n =>
      match I with | .Send i => .Send { i with numPosArgs := toU2 n } | _ => I
  | .Send_fun n =>
      match I with | .Send i => .Send { i with fun_ := n } | _ => I
  | .Send_recv w =>
      match I with | .Send i => .Send { i with recv := i.recv.assign w } | _ => I
  | .Send_receiverLoc l =>
      match I with | .Send i => .Send { i with receiverLoc := l } | _ => I
  | .Send_args xs =>
      match I with | .Send i => .Send { i with args := xs } | _ => I
  | .Send_args_at k w =>
      match I with | .Send i => .Send (i.assignArg k w) | _ => I
  | .Send_argLocs ls =>
      match I with | .Send i => .Send { i with argLocs := ls } | _ => I
  | .Send_link l =>
      match I with | .Send i => .Send { i with link := l } | _ => I
  | .Return_what w =>
      match I with | .Return i => .Return { i with what := i.what.assign w } | _ => I
  | .BlockReturn_link l =>
      match I with | .BlockReturn i => .BlockReturn { i with link := l } | _ => I
  | .BlockReturn_what w =>
      match I with | .BlockReturn i => .BlockReturn { i with what := i.what.assign w } | _ => I
  | .LoadSelf_fallback v =>
      match I with | .LoadSelf i => .LoadSelf { i with fallback := v } | _ => I
  | .LoadSelf_link l =>
      match I with | .LoadSelf i => .LoadSelf { i with link := l } | _ => I
  | .Literal_value t =>
      match I with | .Literal i => .Literal { i with value := t } | _ => I
  | .LoadArg_argId n =>
      match I with | .LoadArg i => .LoadArg { i with argId := toU2 n } | _ => I
  | .LoadArg_method s =>
      match I with | .LoadArg i => .LoadArg { i with method := s } | _ => I
  | .ArgPresent_argId n =>
      match I with | .ArgPresent i => .ArgPresent { i with argId := toU2 n } | _ => I
  | .ArgPresent_method s =>
      match I with | .ArgPresent i => .ArgPresent { i with method := s } | _ => I
  | .LoadYieldParams_link l =>
      match I with | .LoadYieldParams i => .LoadYieldParams { i with link := l } | _ => I
  | .Cast_cast n =>
      match I with | .Cast i => .Cast { i with cast := n } | _ => I
  | .Cast_value w =>
      match I with | .Cast i => .Cast { i with value := i.value.assign w } | _ => I
  | .Cast_type t =>
      match I with | .Cast i => .Cast { i with type := t } | _ => I
  | .TAbsurd_what w =>
      match I with | .TAbsurd i => .TAbsurd { i with what := i.what.assign w } | _ => I

/-- Whether the assignment is to a member named `link`. -/
def FieldWrite.isLinkWrite : FieldWrite → Bool
  | .SolveConstraint_link _ => true
  | .Send_link _ => true
  | .BlockReturn_link _ => true
  | .LoadSelf_link _ => true
  | .LoadYieldParams_link _ => true
  | _ => false

/-- The instruction after a sequence of assignments, made from left to right. -/
def AnyInstruction.assignAll (I : AnyInstruction) (ws : List FieldWrite) : AnyInstruction :=
  ws.foldl AnyInstruction.assign I

/-- The assignment to the type slot of the use-site number `k` of `useSites`. -/
def AnyInstruction.setUseSiteType (I : AnyInstruction) (k : Nat) (t : TypePtr) : AnyInstruction :=
  match I, k with
  | .Send _, 0 => I.assign (.Send_recv (.type t))
  | .Send _, j + 1 => I.assign (.Send_args_at j (.type t))
  | .Return _, 0 => I.assign (.Return_what (.type t))
  | .BlockReturn _, 0 => I.assign (.BlockReturn_what (.type t))
  | .Cast _, 0 => I.assign (.Cast_value (.type t))
  | .TAbsurd _, 0 => I.assign (.TAbsurd_what (.type t))
  | _, _ => I

/-- The use-site with its type slot cleared. -/
def VariableUseSite.eraseType (u : VariableUseSite) : VariableUseSite :=
  { u with type := none }

/-- The instruction with the type slot of every use-site cleared; every member other than the
type slots of the use-sites is as in the instruction. -/
def AnyInstruction.eraseTypes : AnyInstruction → AnyInstruction
  | .Send i =>
      .Send { i with recv := i.recv.eraseType, args := i.args.map VariableUseSite.eraseType }
  | .Return i => .Return { i with what := i.what.eraseType }
  | .BlockReturn i => .BlockReturn { i with what := i.what.eraseType }
  | .Cast i => .Cast { i with value := i.value.eraseType }
  | .TAbsurd i => .TAbsurd { i with what := i.what.eraseType }
  | I => I

/-- An assignment to a member of the instruction at position `k` of a sequence of instructions;
the other instructions are separate objects and are not written. -/
def assignAt (insns : List AnyInstruction) (k : Nat) (w : FieldWrite) : List AnyInstruction :=
  match insns[k]? with
  | some I => insns.set k (I.assign w)
  | none => insns

/-! ## Rendering (lines 24-25, 53-54 and the two declarations of every class) -/

/-- Modelled from the spec: the bodies of `toString` and `showRaw` of `Instruction`, of its
subclasses and of `VariableUseSite` are not in the header, which declares them as `const` member
functions of `const GlobalState &` and `const CFG &` (and `int tabs`) returning `std::string`.
The spec asks for "a short human-readable form and a structurally complete (indentable, nested)
form — both parameterized by the owning graph and the global symbol table" and fixes no format,
so the four bodies are the fields of this record, over any type `GS` of symbol tables and any
type `G` of graphs. -/
structure Renderer (GS G : Type) where
  toString : GS → G → AnyInstruction → String
  showRaw : GS → G → Int → AnyInstruction → String
  useSiteToString : GS → G → VariableUseSite → String
  useSiteShowRaw : GS → G → Int → VariableUseSite → String

/-- A call `what->toString(gs, cfg)`: the string returned and the receiver after the call, which
a `const` member function leaves as it was. -/
def Renderer.callToString {GS G : Type} (R : Renderer GS G) (gs : GS) (cfg : G)
    (what : AnyInstruction) : String × AnyInstruction :=
  (R.toString gs cfg what, what)

/-- A call `what->showRaw(gs, cfg, tabs)`: the string returned and the receiver after the
call. -/
def Renderer.callShowRaw {GS G : Type} (R : Renderer GS G) (gs : GS) (cfg : G) (tabs : Int)
    (what : AnyInstruction) : String × AnyInstruction :=
  (R.showRaw gs cfg tabs what, what)

/-- Modelled from the spec: `core::SendAndBlockLink` and the inference pass that drives it are not
in the header.  The states of a link are "Created", "Populated", "Constraining", "Solved" and
"Released". -/
inductive LinkState where
  | Created
  | Populated
  | Constraining
  | Solved
  | Released
  deriving DecidableEq, Repr

/-- The position of a state in the order Created, Populated, Constraining, Solved, Released. -/
def LinkState.rank : LinkState → Nat
  | .Created => 0
  | .Populated => 1
  | .Constraining => 2
  | .Solved => 3
  | .Released => 4

/-- Modelled from the spec: what happens to a link.  `populate`: "block parameters and self-type
recorded"; `addBound`: "a generic call accumulates type-variable bounds as the inference walk
visits the block body"; `solve`: "SolveConstraint instruction executes, locking the constraint";
`release`: "no more owners hold it". -/
inductive LinkEvent where
  | populate
  | addBound
  | solve
  | release
  deriving DecidableEq, Repr

/-- Modelled from the spec: the transitions "Created → Populated → Constraining → Solved →
Released" of the life cycle; bounds accumulate while the link is Constraining.  Any other pair of
state and event is a violation of the life cycle and yields no state. -/
def LinkState.step : LinkState → LinkEvent → Option LinkState
  | .Created, .populate => some .Populated
  | .Populated, .addBound => some .Constraining
  | .Constraining, .addBound => some .Constraining
  | .Constraining, .solve => some .Solved
  | .Solved, .release => some .Released
  | _, _ => none

/-- The states a link passes through, the first one included, when the events occur in order;
`none` when one of the events violates the life cycle. -/
def LinkState.trace : LinkState → List LinkEvent → Option (List LinkState)
  | s, [] => some [s]
  | s, e :: es =>
      match s.step e with
      | some s2 => (LinkState.trace s2 es).map (List.cons s)
      | none => none

/-! ## Sample values -/

/-- The `Send` object that the constructor builds from receiver 1, name 7, one positional
argument, the argument handles `[3, 3]`, two locations and link 9. -/
def sampleSend : Send :=
  { tag := Tag.Send, isPrivateOk := false, numPosArgs := 1, fun_ := 7,
    recv := { variable_ := 1 }, receiverLoc := { beginPos := 0, endPos := 1 },
    args := [{ variable_ := 3 }, { variable_ := 3 }],
    argLocs := [{ beginPos := 2, endPos := 3 }, { beginPos := 4, endPos := 5 }],
    link := some 9 }

/-- A renderer that returns the empty string. -/
def sampleRenderer : Renderer Unit Unit :=
  { toString := fun _ _ _ => "", showRaw := fun _ _ _ _ => "",
    useSiteToString := fun _ _ _ => "", useSiteShowRaw := fun _ _ _ _ => "" }

/-! ## Lemmas on constructor calls and the downcast -/

theorem CtorCall.build_dynClass (c : CtorCall) : c.build.dynClass = c.cls := by
  cases c <;> rfl

theorem CtorCall.build_tag (c : CtorCall) : c.build.tag = c.cls.tagOf := by
  cases c <;> rfl

theorem InsnClass.tagOf_injective : Function.Injective InsnClass.tagOf := by
  intro a b h
  cases a <;> cases b <;> first | rfl | exact absurd h (by decide)

theorem cast_instruction_isSome_iff (K : InsnClass) (I : AnyInstruction) :
    (cast_instruction K (some I)).isSome ↔ I.dynClass = K := by
  cases K <;> cases I <;> simp [cast_instruction, fast_cast, AnyInstruction.dynClass]

theorem cast_instruction_upcast (K : InsnClass) (I : AnyInstruction) (x : K.carrier)
    (h : cast_instruction K (some I) = some x) : K.upcast x = I := by
  cases K <;> cases I <;> simp [cast_instruction, fast_cast] at h <;> subst h <;> rfl

theorem isa_filter_length (I : AnyInstruction) :
    (InsnClass.all.filter (fun K => isa_instruction K (some I))).length = 1 ∧
    (InsnClass.all.filter (fun K => !isa_instruction K (some I))).length = 13 := by
  cases I <;> exact ⟨rfl, rfl⟩

theorem map_ctor_variable (args : List LocalRef) :
    (args.map VariableUseSite.ctor).map VariableUseSite.variable_ = args := by
  rw [List.map_map]
  exact (List.map_congr_left (fun a _ => rfl)).trans (List.map_id args)

/-! ## Theorems -/

/-- C1: for an instruction built by the constructor of one of the fourteen classes and for every
class `K`, `cast_instruction<K>` is a match exactly when the tag of the instruction is the tag of
`K`, and is null when the tag is another one; `isa_instruction<K>` is true exactly when
`cast_instruction<K>` is a match; a match is the instruction itself; exactly one of the fourteen
classes matches and the other thirteen do not. -/
theorem C1_cast_instruction_matches_tag (c : CtorCall) :
    (∀ K : InsnClass, (cast_instruction K (some c.build)).isSome ↔ c.build.tag = K.tagOf) ∧
    (∀ K : InsnClass, c.build.tag ≠ K.tagOf → cast_instruction K (some c.build) = none) ∧
    (∀ K : InsnClass,
      isa_instruction K (some c.build) = true ↔ (cast_instruction K (some c.build)).isSome) ∧
    (∀ (K : InsnClass) (x : K.carrier),
      cast_instruction K (some c.build) = some x → K.upcast x = c.build) ∧
    (∃! K : InsnClass, (cast_instruction K (some c.build)).isSome) ∧
    InsnClass.all.length = 14 ∧
    (InsnClass.all.filter (fun K => isa_instruction K (some c.build))).length = 1 ∧
    (InsnClass.all.filter (fun K => !isa_instruction K (some c.build))).length = 13 := by
  have key : ∀ K : InsnClass,
      (cast_instruction K (some c.build)).isSome ↔ c.build.tag = K.tagOf := by
    intro K
    rw [cast_instruction_isSome_iff, CtorCall.build_tag c, CtorCall.build_dynClass c]
    exact ⟨fun e => congrArg _ e, fun e => InsnClass.tagOf_injective e⟩
  refine ⟨key, ?_, ?_, ?_, ?_, rfl, (isa_filter_length c.build).1, (isa_filter_length c.build).2⟩
  · intro K hne
    have hn : ¬ (cast_instruction K (some c.build)).isSome := fun hs => hne ((key K).1 hs)
    simpa using hn
  · intro K
    simp [isa_instruction]
  · intro K x hx
    exact cast_instruction_upcast K c.build x hx
  · refine ⟨c.build.dynClass, (cast_instruction_isSome_iff _ _).2 rfl, ?_⟩
    intro K hK
    exact ((cast_instruction_isSome_iff _ _).1 hK).symm

/-- C3: the variable handles given to a constructor are read back from the constructed
instruction unchanged and in order.  A `Send` built from `recv` and `args` has
`recv.variable == recv` and `args[i].variable == args[i]` for every `i`, with as many use-sites as
handles, whether or not handles repeat; `Cast(v, t, c)` has `value.variable == v`; `TAbsurd(v)`
has `what.variable == v`; `SolveConstraint(link, v)` has `send == v`; and likewise for `Ident`,
`Return`, `BlockReturn` and `LoadSelf`. -/
theorem C3_operand_handles_round_trip (recv : LocalRef) (fun_ : NameRef)
    (receiverLoc : LocOffsets) (numPosArgs : Nat) (args : List LocalRef)
    (argLocs : List LocOffsets) (isPrivateOk : Bool) (link : LinkPtr)
    (v : LocalRef) (t : TypePtr) (c : NameRef) (l : LinkPtr) :
    ((Send.ctor recv fun_ receiverLoc numPosArgs args argLocs isPrivateOk link).recv.variable_
        = recv ∧
      (Send.ctor recv fun_ receiverLoc numPosArgs args argLocs isPrivateOk link).args.length
        = args.length ∧
      (∀ i : Nat,
        ((Send.ctor recv fun_ receiverLoc numPosArgs args argLocs isPrivateOk
            link).args[i]?).map VariableUseSite.variable_ = args[i]?) ∧
      (Send.ctor recv fun_ receiverLoc numPosArgs args argLocs isPrivateOk link).args.map
        VariableUseSite.variable_ = args ∧
      (AnyInstruction.Send
        (Send.ctor recv fun_ receiverLoc numPosArgs args argLocs isPrivateOk
          link)).operandHandles = recv :: args) ∧
    ((Cast.ctor v t c).value.variable_ = v ∧
      (AnyInstruction.Cast (Cast.ctor v t c)).operandHandles = [v]) ∧
    ((TAbsurd.ctor v).what.variable_ = v ∧
      (AnyInstruction.TAbsurd (TAbsurd.ctor v)).operandHandles = [v]) ∧
    ((SolveConstraint.ctor l v).send = v ∧
      (AnyInstruction.SolveConstraint (SolveConstraint.ctor l v)).operandHandles = [v]) ∧
    ((Ident.ctor v).what = v ∧ (Return.ctor v).what.variable_ = v ∧
      (BlockReturn.ctor l v).what.variable_ = v ∧ (LoadSelf.ctor l v).fallback = v) := by
  have hmap := map_ctor_variable args
  refine ⟨⟨rfl, List.length_map _ _, ?_, hmap, ?_⟩, ⟨rfl, rfl⟩, ⟨rfl, rfl⟩, ⟨rfl, rfl⟩,
    rfl, rfl, rfl, rfl⟩
  · intro i
    have := congrArg (fun xs => xs[i]?) hmap
    simpa [Send.ctor, List.getElem?_map] using this
  · show VariableUseSite.variable_ (VariableUseSite.ctor recv) ::
        (args.map VariableUseSite.ctor).map VariableUseSite.variable_ = recv :: args
    rw [hmap]
    rfl

/-- C5: the use-site `VariableUseSite(v)` holds `v` and an absent type; every use-site operand of
an instruction just built by the constructor of any of the fourteen classes has an absent type;
`Cast(v, t, c)` stores `t` in the member `type` of the instruction while `value.type` is absent,
whatever `t` is; the operand of `TAbsurd(v)` has an absent type. -/
theorem C5_fresh_use_sites_have_absent_type (call : CtorCall) (v : LocalRef) (t : TypePtr)
    (c : NameRef) :
    ((VariableUseSite.ctor v).variable_ = v ∧ (VariableUseSite.ctor v).type = none) ∧
    (∀ u ∈ call.build.useSites, u.type = none) ∧
    ((Cast.ctor v t c).type = t ∧ (Cast.ctor v t c).value.type = none ∧
      (Cast.ctor v t c).value.variable_ = v) ∧
    (TAbsurd.ctor v).what.type = none := by
  refine ⟨⟨rfl, rfl⟩, ?_, ⟨rfl, rfl, rfl⟩, rfl⟩
  cases call
  case Send recv fun_ receiverLoc numPosArgs args argLocs isPrivateOk link =>
    intro u hu
    simp only [CtorCall.build, Send.ctor, AnyInstruction.useSites, List.mem_cons,
      List.mem_map] at hu
    rcases hu with rfl | ⟨a, -, rfl⟩ <;> rfl
  all_goals
    intro u hu
    first
      | exact absurd hu (List.not_mem_nil u)
      | (rw [List.mem_singleton.1 hu]; rfl)

/-! ## Lemmas on assignments -/

theorem set_eq_self_of_getElem? {α : Type} (l : List α) (i : Nat) (u : α)
    (h : l[i]? = some u) : l.set i u = l := by
  induction l generalizing i with
  | nil => rfl
  | cons a l ih =>
    cases i with
    | zero =>
      simp only [List.getElem?_cons_zero, Option.some.injEq] at h
      simp [h]
    | succ j =>
      simp only [List.getElem?_cons_succ] at h
      simp [ih j h]

theorem Send.assignArg_of_getElem? (s : Send) (i : Nat) (w : UseSiteWrite) (u : VariableUseSite)
    (h : s.args[i]? = some u) :
    s.assignArg i w = { s with args := s.args.set i (u.assign w) } := by
  simp only [Send.assignArg, h]

theorem Send.assignArg_toInstruction (s : Send) (i : Nat) (w : UseSiteWrite) :
    (s.assignArg i w).toInstruction = s.toInstruction := by
  unfold Send.assignArg
  split <;> rfl

theorem AnyInstruction.assign_tag (I : AnyInstruction) (w : FieldWrite) :
    (I.assign w).tag = I.tag := by
  cases w <;> cases I <;>
    first
      | rfl
      | exact congrArg Instruction.tag (Send.assignArg_toInstruction _ _ _)

theorem AnyInstruction.assign_dynClass (I : AnyInstruction) (w : FieldWrite) :
    (I.assign w).dynClass = I.dynClass := by
  cases w <;> cases I <;> rfl

theorem AnyInstruction.assignAll_tag (I : AnyInstruction) (ws : List FieldWrite) :
    (I.assignAll ws).tag = I.tag := by
  induction ws generalizing I with
  | nil => rfl
  | cons w ws ih =>
    show ((I.assign w).assignAll ws).tag = I.tag
    rw [ih, AnyInstruction.assign_tag]

theorem AnyInstruction.setUseSiteType_tag (I : AnyInstruction) (k : Nat) (t : TypePtr) :
    (I.setUseSiteType k t).tag = I.tag := by
  unfold AnyInstruction.setUseSiteType
  split <;> first | rfl | exact AnyInstruction.assign_tag _ _

/-- C4: the tag of an instruction is fixed at construction.  An assignment to any non-const data
member (the flag `isSynthetic`, the type slot of a use-site, the value of a `Literal`, an operand
handle, or any other member), and any sequence of such assignments, leaves the tag as it was;
the object stays an instance of the same class; and an instruction built by one of the
constructors defined in the header keeps the tag of its class under every such sequence. -/
theorem C4_tag_fixed_at_construction (I : AnyInstruction) (w : FieldWrite)
    (ws : List FieldWrite) (b : Bool) (k : Nat) (t : TypePtr) (v : LocalRef) (l : LinkPtr)
    (m : SymbolRef) (a : Nat) (c : NameRef) :
    ((I.assign w).tag = I.tag ∧ (I.assignAll ws).tag = I.tag ∧
      (I.assign w).dynClass = I.dynClass) ∧
    ((I.setSynthetic b).tag = I.tag ∧ (I.setUseSiteType k t).tag = I.tag ∧
      (I.assign (.Literal_value t)).tag = I.tag ∧ (I.assign (.Ident_what v)).tag = I.tag ∧
      (I.assign (.Send_recv (.variable_ v))).tag = I.tag ∧
      (I.assign (.Send_args_at k (.variable_ v))).tag = I.tag) ∧
    (((AnyInstruction.SolveConstraint (SolveConstraint.ctor l v)).assignAll ws).tag
        = Tag.SolveConstraint ∧
      ((AnyInstruction.GetCurrentException GetCurrentException.ctor).assignAll ws).tag
        = Tag.GetCurrentException ∧
      ((AnyInstruction.LoadArg (LoadArg.ctor m a)).assignAll ws).tag = Tag.LoadArg ∧
      ((AnyInstruction.ArgPresent (ArgPresent.ctor m a)).assignAll ws).tag = Tag.ArgPresent ∧
      ((AnyInstruction.LoadYieldParams (LoadYieldParams.ctor l)).assignAll ws).tag
        = Tag.LoadYieldParams ∧
      ((AnyInstruction.Cast (Cast.ctor v t c)).assignAll ws).tag = Tag.Cast ∧
      ((AnyInstruction.TAbsurd (TAbsurd.ctor v)).assignAll ws).tag = Tag.TAbsurd) := by
  refine ⟨⟨AnyInstruction.assign_tag I w, AnyInstruction.assignAll_tag I ws,
      AnyInstruction.assign_dynClass I w⟩,
    ⟨AnyInstruction.assign_tag I (.isSynthetic b), AnyInstruction.setUseSiteType_tag I k t,
      AnyInstruction.assign_tag I _, AnyInstruction.assign_tag I _,
      AnyInstruction.assign_tag I _, AnyInstruction.assign_tag I _⟩, ?_⟩
  simp only [AnyInstruction.assignAll_tag]
  exact ⟨rfl, rfl, rfl, rfl, rfl, rfl, rfl⟩

/-! ## Lemmas on use-site type slots -/

theorem AnyInstruction.setUseSiteType_useSites (I : AnyInstruction) (k : Nat) (t : TypePtr)
    (u : VariableUseSite) (h : I.useSites[k]? = some u) :
    (I.setUseSiteType k t).useSites = I.useSites.set k { variable_ := u.variable_, type := t } := by
  cases I <;> simp only [AnyInstruction.useSites, List.getElem?_nil] at h <;>
    try exact absurd h (by simp)
  case Send s =>
    cases k with
    | zero =>
      simp only [List.getElem?_cons_zero, Option.some.injEq] at h
      subst h
      rfl
    | succ j =>
      simp only [List.getElem?_cons_succ] at h
      simp only [AnyInstruction.setUseSiteType, AnyInstruction.assign,
        Send.assignArg_of_getElem? s j _ u h]
      rfl
  all_goals
    cases k with
    | zero =>
      simp only [List.getElem?_cons_zero, Option.some.injEq] at h
      subst h
      rfl
    | succ j => simp at h

theorem AnyInstruction.setUseSiteType_restore (I : AnyInstruction) (k : Nat) (t : TypePtr)
    (u : VariableUseSite) (h : I.useSites[k]? = some u) :
    (I.setUseSiteType k t).setUseSiteType k u.type = I := by
  cases I <;> simp only [AnyInstruction.useSites, List.getElem?_nil] at h <;>
    try exact absurd h (by simp)
  case Send s =>
    cases k with
    | zero =>
      simp only [List.getElem?_cons_zero, Option.some.injEq] at h
      subst h
      rfl
    | succ j =>
      simp only [List.getElem?_cons_succ] at h
      have hlt : j < s.args.length := (List.getElem?_eq_some_iff.1 h).1
      have h2 : (s.args.set j (u.assign (.type t)))[j]? = some (u.assign (.type t)) :=
        List.getElem?_set_self hlt
      simp only [AnyInstruction.setUseSiteType, AnyInstruction.assign,
        Send.assignArg_of_getElem? s j _ u h]
      rw [Send.assignArg_of_getElem? _ j _ (u.assign (.type t)) h2]
      simp only [List.set_set]
      have h3 : (u.assign (.type t)).assign (.type u.type) = u := rfl
      rw [h3, set_eq_self_of_getElem? s.args j u h]
  all_goals
    cases k with
    | zero =>
      simp only [List.getElem?_cons_zero, Option.some.injEq] at h
      subst h
      rfl
    | succ j => simp at h

theorem AnyInstruction.setUseSiteType_frame (I : AnyInstruction) (k : Nat) (t : TypePtr) :
    (I.setUseSiteType k t).isSynthetic = I.isSynthetic ∧
    (I.setUseSiteType k t).dynClass = I.dynClass ∧
    (I.setUseSiteType k t).symbolNameRefs = I.symbolNameRefs ∧
    (I.setUseSiteType k t).linkMember = I.linkMember := by
  cases I <;> cases k <;>
    first
      | exact ⟨rfl, rfl, rfl, rfl⟩
      | (simp only [AnyInstruction.setUseSiteType, AnyInstruction.assign, Send.assignArg]
         split <;> exact ⟨rfl, rfl, rfl, rfl⟩)

theorem AnyInstruction.setUseSiteType_eraseTypes (I : AnyInstruction) (k : Nat) (t : TypePtr) :
    (I.setUseSiteType k t).eraseTypes = I.eraseTypes := by
  cases I <;> cases k <;> try rfl
  case Send.succ s j =>
    simp only [AnyInstruction.setUseSiteType, AnyInstruction.assign, Send.assignArg]
    split
    · rename_i u hu
      simp only [AnyInstruction.eraseTypes, List.map_set]
      have h1 : (s.args.map VariableUseSite.eraseType)[j]?
          = some (VariableUseSite.eraseType (u.assign (.type t))) := by
        rw [List.getElem?_map, hu]
        rfl
      rw [set_eq_self_of_getElem? _ j _ h1]
    · rfl

theorem assignAt_getElem?_ne (insns : List AnyInstruction) (i j : Nat) (w : FieldWrite)
    (hij : i ≠ j) : (assignAt insns i w)[j]? = insns[j]? := by
  unfold assignAt
  split
  · exact List.getElem?_set_ne hij
  · rfl

theorem assignAt_length (insns : List AnyInstruction) (i : Nat) (w : FieldWrite) :
    (assignAt insns i w).length = insns.length := by
  unfold assignAt
  split
  · exact List.length_set _ _ _
  · rfl

/-- C6: use-sites are independent.  Writing the type slot of the use-site number `k` of an
instruction (for a `Send`, number 0 is `recv` and number `a + 1` is `args[a]`) changes that slot
and nothing else: the use-site keeps its variable handle, every other use-site keeps its handle
and its type, also when it names the same variable, writing the old type back gives the
original instruction, and apart from the type slots of the use-sites the instruction is the
same, so that no other member has changed.  In a sequence of instructions an
assignment to a member of one instruction leaves every other instruction as it was. -/
theorem C6_use_sites_independent (I : AnyInstruction) (k : Nat) (t : TypePtr)
    (u : VariableUseSite) (h : I.useSites[k]? = some u)
    (insns : List AnyInstruction) (i j : Nat) (w : FieldWrite) (hij : i ≠ j) :
    ((I.setUseSiteType k t).useSites[k]? = some { variable_ := u.variable_, type := t } ∧
      (∀ n : Nat, n ≠ k → (I.setUseSiteType k t).useSites[n]? = I.useSites[n]?) ∧
      (I.setUseSiteType k t).useSites.length = I.useSites.length ∧
      (I.setUseSiteType k t).operandHandles = I.operandHandles) ∧
    ((I.setUseSiteType k t).setUseSiteType k u.type = I ∧
      (I.setUseSiteType k t).tag = I.tag ∧
      (I.setUseSiteType k t).isSynthetic = I.isSynthetic ∧
      (I.setUseSiteType k t).dynClass = I.dynClass ∧
      (I.setUseSiteType k t).symbolNameRefs = I.symbolNameRefs ∧
      (I.setUseSiteType k t).linkMember = I.linkMember ∧
      (I.setUseSiteType k t).eraseTypes = I.eraseTypes) ∧
    ((assignAt insns i w)[j]? = insns[j]? ∧ (assignAt insns i w).length = insns.length) := by
  have hus := AnyInstruction.setUseSiteType_useSites I k t u h
  have hlt : k < I.useSites.length := (List.getElem?_eq_some_iff.1 h).1
  have hfr := AnyInstruction.setUseSiteType_frame I k t
  have hres := AnyInstruction.setUseSiteType_restore I k t u h
  refine ⟨⟨?_, ?_, ?_, ?_⟩,
    ⟨hres, AnyInstruction.setUseSiteType_tag I k t, hfr.1, hfr.2.1, hfr.2.2.1, hfr.2.2.2,
      AnyInstruction.setUseSiteType_eraseTypes I k t⟩,
    ⟨assignAt_getElem?_ne insns i j w hij, assignAt_length insns i w⟩⟩
  · rw [hus]
    exact List.getElem?_set_self hlt
  · intro n hn
    rw [hus]
    exact List.getElem?_set_ne (Ne.symm hn)
  · rw [hus]
    exact List.length_set _ _ _
  · have hmap : (I.setUseSiteType k t).useSites.map VariableUseSite.variable_
        = I.useSites.map VariableUseSite.variable_ := by
      rw [hus, List.map_set]
      exact set_eq_self_of_getElem? _ k _ (by simp [List.getElem?_map, h])
    have hcls := hfr.2.1
    cases I <;> cases hI : AnyInstruction.setUseSiteType _ k t <;>
      simp only [hI, AnyInstruction.dynClass, reduceCtorEq] at hcls <;>
      simp only [AnyInstruction.useSites, List.getElem?_nil, reduceCtorEq] at h <;>
      simp only [hI] at hmap <;>
      exact hmap

/-- In the sample `Send`, whose two arguments name the same variable, writing the type slot of
`args[0]` leaves `recv` and `args[1]` as they were, and an assignment to the first of two
instructions leaves the second as it was. -/
theorem C6_use_sites_independent_witness :
    (AnyInstruction.Send sampleSend).useSites[1]? = some { variable_ := 3 } ∧
    ((AnyInstruction.Send sampleSend).setUseSiteType 1 (some 5)).useSites[1]?
      = some { variable_ := 3, type := some 5 } ∧
    ((AnyInstruction.Send sampleSend).setUseSiteType 1 (some 5)).useSites[2]?
      = some { variable_ := 3 } ∧
    ((AnyInstruction.Send sampleSend).setUseSiteType 1 (some 5)).setUseSiteType 1 none
      = .Send sampleSend ∧
    (assignAt [.Send sampleSend, .Send sampleSend] 0 (.Send_recv (.type (some 5))))[1]?
      = some (.Send sampleSend) :=
  have key := C6_use_sites_independent (.Send sampleSend) 1 (some 5) { variable_ := 3 }
    (by decide) [.Send sampleSend, .Send sampleSend] 0 1 (.Send_recv (.type (some 5)))
    (by decide)
  ⟨by decide, key.1.1, (key.1.2.1 2 (by decide)).trans (by decide), key.2.1.1, key.2.2.1⟩

/-- C10: every instruction is non-synthetic right after construction, for each of the fourteen
classes, and an assignment to `isSynthetic` changes only that flag: the tag, the class, the
operand handles, the use-sites with their types, the symbol and name references and the link are
as before, and assigning the old flag gives the original instruction back. -/
theorem C10_isSynthetic_default_and_frame (call : CtorCall) (J : AnyInstruction) (b : Bool) :
    call.build.isSynthetic = false ∧
    ((J.setSynthetic b).isSynthetic = b ∧
      (J.setSynthetic b).tag = J.tag ∧
      (J.setSynthetic b).dynClass = J.dynClass ∧
      (J.setSynthetic b).operandHandles = J.operandHandles ∧
      (J.setSynthetic b).useSites = J.useSites ∧
      (J.setSynthetic b).symbolNameRefs = J.symbolNameRefs ∧
      (J.setSynthetic b).linkMember = J.linkMember ∧
      (J.setSynthetic b).setSynthetic J.isSynthetic = J ∧
      J.assign (.isSynthetic b) = J.setSynthetic b) := by
  constructor
  · cases call <;> rfl
  · cases J <;> exact ⟨rfl, rfl, rfl, rfl, rfl, rfl, rfl, rfl, rfl⟩

/-! ## Lemmas on the link member and on the life cycle of a link -/

theorem AnyInstruction.assign_linkMember (I : AnyInstruction) (w : FieldWrite)
    (hw : w.isLinkWrite = false) : (I.assign w).linkMember = I.linkMember := by
  cases w <;> simp only [FieldWrite.isLinkWrite, reduceCtorEq] at hw <;> cases I <;>
    first
      | rfl
      | (simp only [AnyInstruction.assign, Send.assignArg]
         split <;> rfl)

theorem AnyInstruction.assignAll_linkMember (I : AnyInstruction) (ws : List FieldWrite)
    (hws : ∀ x ∈ ws, x.isLinkWrite = false) : (I.assignAll ws).linkMember = I.linkMember := by
  induction ws generalizing I with
  | nil => rfl
  | cons w ws ih =>
    show ((I.assign w).assignAll ws).linkMember = I.linkMember
    rw [ih _ (fun x hx => hws x (List.mem_cons_of_mem _ hx)),
      AnyInstruction.assign_linkMember I w (hws w (List.mem_cons_self _ _))]

theorem LinkState.step_rank_le {a b : LinkState} {e : LinkEvent} (h : a.step e = some b) :
    a.rank ≤ b.rank := by
  cases a <;> cases e <;> simp only [LinkState.step, Option.some.injEq, reduceCtorEq] at h <;>
    subst h <;> decide

theorem LinkState.trace_cons {s : LinkState} {e : LinkEvent} {es : List LinkEvent}
    {tr : List LinkState} (h : s.trace (e :: es) = some tr) :
    ∃ s2 tr2, s.step e = some s2 ∧ s2.trace es = some tr2 ∧ tr = s :: tr2 := by
  simp only [LinkState.trace] at h
  split at h
  · rename_i s2 hs
    obtain ⟨tr2, h2, rfl⟩ := Option.map_eq_some'.1 h
    exact ⟨s2, tr2, hs, h2, rfl⟩
  · exact absurd h (by simp)

theorem LinkState.trace_rank_ge {s : LinkState} {es : List LinkEvent} {tr : List LinkState}
    (h : s.trace es = some tr) : ∀ b ∈ tr, s.rank ≤ b.rank := by
  induction es generalizing s tr with
  | nil =>
    simp only [LinkState.trace, Option.some.injEq] at h
    subst h
    intro b hb
    rw [List.mem_singleton.1 hb]
  | cons e es ih =>
    obtain ⟨s2, tr2, hs, h2, rfl⟩ := LinkState.trace_cons h
    intro b hb
    rcases List.mem_cons.1 hb with rfl | hb
    · exact Nat.le_refl _
    · exact Nat.le_trans (LinkState.step_rank_le hs) (ih h2 b hb)

theorem LinkState.trace_pairwise {s : LinkState} {es : List LinkEvent} {tr : List LinkState}
    (h : s.trace es = some tr) : tr.Pairwise (fun a b => a.rank ≤ b.rank) := by
  induction es generalizing s tr with
  | nil =>
    simp only [LinkState.trace, Option.some.injEq] at h
    subst h
    exact List.pairwise_singleton _ _
  | cons e es ih =>
    obtain ⟨s2, tr2, hs, h2, rfl⟩ := LinkState.trace_cons h
    refine List.pairwise_cons.2 ⟨?_, ih h2⟩
    intro b hb
    exact Nat.le_trans (LinkState.step_rank_le hs) (LinkState.trace_rank_ge h2 b hb)

theorem LinkState.trace_shape {s : LinkState} {es : List LinkEvent} {tr : List LinkState}
    (h : s.trace es = some tr) : tr.length = es.length + 1 ∧ tr.head? = some s := by
  induction es generalizing s tr with
  | nil =>
    simp only [LinkState.trace, Option.some.injEq] at h
    subst h
    exact ⟨rfl, rfl⟩
  | cons e es ih =>
    obtain ⟨s2, tr2, -, h2, rfl⟩ := LinkState.trace_cons h
    exact ⟨by simp [(ih h2).1], rfl⟩

/-- C7, the claim as stated fails: the member `link` is an assignable public member, and
an assignment to it makes a `SolveConstraint` built from link 1 reference link 2. -/
theorem C7_link_rebound_counterexample :
    (SolveConstraint.ctor (some 1) 0).link = some 1 ∧
    ((AnyInstruction.SolveConstraint (SolveConstraint.ctor (some 1) 0)).assign
        (.SolveConstraint_link (some 2))).linkMember = some (some 2) ∧
    ¬ (∀ (L : LinkPtr) (v : LocalRef) (w : FieldWrite),
        ((AnyInstruction.SolveConstraint (SolveConstraint.ctor L v)).assign w).linkMember
          = some L) := by
  refine ⟨rfl, rfl, ?_⟩
  intro hall
  exact absurd (hall (some 1) 0 (.SolveConstraint_link (some 2))) (by decide)

/-- C7, amended: `SolveConstraint(L, v)` and `LoadYieldParams(L)` each reference exactly `L`, so
instructions built from one link reference the same link; rendering and every assignment to a
member other than `link` (marking synthetic, writing a use-site type or a `Literal` value,
replacing an operand handle, and the rest), and every sequence of such assignments, leave the
referenced link as it was; an assignment to the member `link` itself makes the instruction
reference the assigned link. -/
theorem C7_link_bound_at_construction (L L2 : LinkPtr) (v : LocalRef) (I : AnyInstruction)
    (w : FieldWrite) (hw : w.isLinkWrite = false) (ws : List FieldWrite)
    (hws : ∀ x ∈ ws, x.isLinkWrite = false) {GS G : Type} (R : Renderer GS G) (gs : GS)
    (cfg : G) (tabs : Int) :
    ((SolveConstraint.ctor L v).link = L ∧ (LoadYieldParams.ctor L).link = L ∧
      (AnyInstruction.SolveConstraint (SolveConstraint.ctor L v)).linkMember
        = (AnyInstruction.LoadYieldParams (LoadYieldParams.ctor L)).linkMember) ∧
    ((I.assign w).linkMember = I.linkMember ∧ (I.assignAll ws).linkMember = I.linkMember ∧
      (R.callToString gs cfg I).2.linkMember = I.linkMember ∧
      (R.callShowRaw gs cfg tabs I).2.linkMember = I.linkMember) ∧
    (((AnyInstruction.SolveConstraint (SolveConstraint.ctor L v)).assign
        (.SolveConstraint_link L2)).linkMember = some L2 ∧
      ((AnyInstruction.LoadYieldParams (LoadYieldParams.ctor L)).assign
        (.LoadYieldParams_link L2)).linkMember = some L2) :=
  ⟨⟨rfl, rfl, rfl⟩,
   ⟨AnyInstruction.assign_linkMember I w hw, AnyInstruction.assignAll_linkMember I ws hws,
    rfl, rfl⟩,
   ⟨rfl, rfl⟩⟩

/-- On a `SolveConstraint` built from link 1, marking it synthetic and replacing its operand
handle leave the link, while an assignment to `link` rebinds it. -/
theorem C7_link_bound_at_construction_witness :
    FieldWrite.isLinkWrite (.isSynthetic true) = false ∧
    (∀ x ∈ [FieldWrite.isSynthetic true, FieldWrite.SolveConstraint_send 4],
      x.isLinkWrite = false) ∧
    (SolveConstraint.ctor (some 1) 0).link = some 1 ∧
    ((AnyInstruction.SolveConstraint (SolveConstraint.ctor (some 1) 0)).assignAll
      [.isSynthetic true, .SolveConstraint_send 4]).linkMember = some (some 1) :=
  have key := C7_link_bound_at_construction (some 1) (some 2) 0
    (.SolveConstraint (SolveConstraint.ctor (some 1) 0)) (.isSynthetic true) (by decide)
    [.isSynthetic true, .SolveConstraint_send 4] (by decide) sampleRenderer () () 0
  ⟨by decide, by decide, key.1.1, key.2.1.2.1⟩

/-- C8: the states a call-link passes through are non-decreasing in the order Created, Populated,
Constraining, Solved (, Released): no step takes a link to an earlier state, any two states of a
trace are in order, and no Constraining state occurs after a Solved state. -/
theorem C8_link_states_non_decreasing (s : LinkState) (es : List LinkEvent)
    (tr : List LinkState) (h : s.trace es = some tr) :
    tr.Pairwise (fun a b => a.rank ≤ b.rank) ∧
    tr.Chain' (fun a b => a.rank ≤ b.rank) ∧
    (∀ l1 l2 : List LinkState, tr = l1 ++ LinkState.Solved :: l2 →
      LinkState.Constraining ∉ l2) ∧
    (∀ (a b : LinkState) (e : LinkEvent), a.step e = some b → a.rank ≤ b.rank) ∧
    (∀ e : LinkEvent, LinkState.Solved.step e ≠ some LinkState.Constraining) ∧
    (tr.length = es.length + 1 ∧ tr.head? = some s) := by
  have hp := LinkState.trace_pairwise h
  refine ⟨hp, hp.chain', ?_, fun a b e hs => LinkState.step_rank_le hs, ?_,
    LinkState.trace_shape h⟩
  · intro l1 l2 htr hmem
    rw [htr] at hp
    have h2 := (List.pairwise_append.1 hp).2.1
    have h3 := (List.pairwise_cons.1 h2).1 _ hmem
    exact absurd h3 (by decide)
  · intro e
    cases e <;> decide

/-- A link that is populated, accumulates two bounds, is solved and is released passes through
Created, Populated, Constraining, Constraining, Solved, Released, which is in order. -/
theorem C8_link_states_non_decreasing_witness :
    LinkState.Created.trace [.populate, .addBound, .addBound, .solve, .release]
      = some [.Created, .Populated, .Constraining, .Constraining, .Solved, .Released] ∧
    [LinkState.Created, .Populated, .Constraining, .Constraining, .Solved, .Released].Pairwise
      (fun a b => a.rank ≤ b.rank) :=
  ⟨by decide,
   (C8_link_states_non_decreasing .Created [.populate, .addBound, .addBound, .solve, .release]
      [.Created, .Populated, .Constraining, .Constraining, .Solved, .Released] (by decide)).1⟩

end sorbet.cfg
